import Mathlib

/-!
# The `server` command of aws-iam-authenticator

A shallow embedding of `cmd/aws-iam-authenticator/server.go`: the `Run`
function of `serverCmd` and the flag registrations of `init`.

`Run` only sequences calls into other packages (`signals`, `getConfig`,
`server`, `logrus`, the mappers).  Those callees are parameters of the
model (`Env`), and an execution of `Run` is the ordered list of calls it
makes (`Event`), together with the way it ends (`Outcome`).
-/

namespace ServerCmd

/-! ## Constants -/

/-- DefaultPort is the default localhost port (chosen randomly). -/
def DefaultPort : Int := 21362

/-- Default EC2 TPS variable: steady rate. -/
def DefaultEC2DescribeInstancesQps : Int := 15

/-- Default EC2 TPS variable: burst. -/
def DefaultEC2DescribeInstancesBurst : Int := 5

/-! ## The callees of `Run` -/

/-- A stop channel (`<-chan struct{}`), identified by a number. -/
abbrev StopCh := Nat

/-- A Go `error` value that is not nil, identified by its message. -/
abbrev Err := String

/-- The part of the `mapper.Mapper` interface that `Run` uses: `Name()` and
`Start(stopCh) error`, where `none` is the nil error.  `Run` calls `Start` at
most once for each position of the chain, so the value of `Start` is the
result of that one call. -/
structure Mapper where
  Name : String
  Start : StopCh → Option Err

/-- The value returned by `server.New(cfg, mappers)`: the server remembers the
configuration and the mapper chain it was constructed with. -/
structure Server (Config : Type) where
  cfg : Config
  mappers : List Mapper

/-- The environment of `Run`: what each callee outside this file returns. -/
structure Env (Config : Type) where
  /-- the channel returned by `signals.SetupSignalHandler()` -/
  SetupSignalHandler : StopCh
  /-- the result of `getConfig()` -/
  getConfig : Except Err Config
  /-- the function `server.BuildMapperChain` -/
  BuildMapperChain : Config → List Mapper

/-- One call made by `Run`, with its arguments (and, for `Start`, its result).
A format string is kept apart from its arguments. -/
inductive Event (Config : Type) where
  | setupSignalHandler (ch : StopCh)
  | getConfig
  | buildMapperChain (cfg : Config)
  | infof (format : String) (args : List String)
  | fatalf (format : String) (args : List String)
  | start (m : Mapper) (stopCh : StopCh) (err : Option Err)
  | serverNew (cfg : Config) (mappers : List Mapper)
  | serverRun (srv : Server Config) (stopCh : StopCh)

/-- How `Run` ends: `logrus.Fatalf` exits the process, otherwise `Run`
returns after `httpServer.Run` has returned. -/
inductive Outcome where
  | fatal
  | returned
deriving DecidableEq, Repr

/-- An execution: the calls made, in order, and the way it ended. -/
structure Exec (Config : Type) where
  trace : List (Event Config)
  outcome : Outcome

/-! ## `serverCmd.Run` -/

/-- The loop `for _, m := range mappers { ... }` of `Run`: log, start the
mapper, and exit through `logrus.Fatalf` at the first `Start` error. -/
def startMappers {Config : Type} (stopCh : StopCh) : List Mapper → Exec Config
  | [] => ⟨[], .returned⟩
  | m :: rest =>
    let calls : List (Event Config) :=
      [.infof "starting mapper %q" [m.Name], .start m stopCh (m.Start stopCh)]
    match m.Start stopCh with
    | some _ => ⟨calls ++ [.fatalf "start mapper %q failed" [m.Name]], .fatal⟩
    | none =>
      let r : Exec Config := startMappers stopCh rest
      ⟨calls ++ r.trace, r.outcome⟩

/-- The `Run` function of `serverCmd`. -/
def Run {Config : Type} (env : Env Config) : Exec Config :=
  let stopCh := env.SetupSignalHandler
  let head : List (Event Config) := [.setupSignalHandler stopCh, .getConfig]
  match env.getConfig with
  | .error err => ⟨head ++ [.fatalf "%s" [err]], .fatal⟩
  | .ok cfg =>
    let mappers := env.BuildMapperChain cfg
    let loop : Exec Config := startMappers stopCh mappers
    match loop.outcome with
    | .fatal => ⟨head ++ [.buildMapperChain cfg] ++ loop.trace, .fatal⟩
    | .returned =>
      let httpServer : Server Config := ⟨cfg, mappers⟩
      ⟨head ++ [.buildMapperChain cfg] ++ loop.trace ++
        [.serverNew cfg mappers, .serverRun httpServer stopCh], .returned⟩

/-! ## Observations on a trace -/

/-- The `Start` calls of a trace, in order: mapper, channel passed, result. -/
def startCalls {Config : Type} : List (Event Config) → List (Mapper × StopCh × Option Err)
  | [] => []
  | .start m ch e :: t => (m, ch, e) :: startCalls t
  | _ :: t => startCalls t

/-- The `server.New` calls of a trace, in order. -/
def serverNewCalls {Config : Type} : List (Event Config) → List (Config × List Mapper)
  | [] => []
  | .serverNew cfg ms :: t => (cfg, ms) :: serverNewCalls t
  | _ :: t => serverNewCalls t

/-- The `httpServer.Run` calls of a trace, in order. -/
def serverRunCalls {Config : Type} : List (Event Config) → List (Server Config × StopCh)
  | [] => []
  | .serverRun srv ch :: t => (srv, ch) :: serverRunCalls t
  | _ :: t => serverRunCalls t

/-- The `server.BuildMapperChain` calls of a trace, in order. -/
def buildCalls {Config : Type} : List (Event Config) → List Config
  | [] => []
  | .buildMapperChain cfg :: t => cfg :: buildCalls t
  | _ :: t => buildCalls t

/-- The channels returned by the `signals.SetupSignalHandler` calls of a trace. -/
def signalCalls {Config : Type} : List (Event Config) → List StopCh
  | [] => []
  | .setupSignalHandler ch :: t => ch :: signalCalls t
  | _ :: t => signalCalls t

/-- The `logrus.Fatalf` calls of a trace: format and arguments. -/
def fatalCalls {Config : Type} : List (Event Config) → List (String × List String)
  | [] => []
  | .fatalf f a :: t => (f, a) :: fatalCalls t
  | _ :: t => fatalCalls t

/-- The calls the loop makes for mappers whose `Start` all return nil: one
log line and one `Start` call for each, in order. -/
def startedTrace {Config : Type} (stopCh : StopCh) : List Mapper → List (Event Config)
  | [] => []
  | m :: rest =>
    .infof "starting mapper %q" [m.Name] :: .start m stopCh none :: startedTrace stopCh rest

/-! ## Flags of the `server` command (`init`) -/

/-- The default value of a flag, by the kind of flag that was declared
(`String`, `Bool`, `Int`, `StringSlice`). -/
inductive FlagValue where
  | string (v : String)
  | bool (v : Bool)
  | int (v : Int)
  | stringSlice (v : List String)
deriving DecidableEq, Repr

/-- A declared flag: its name, its default value and its usage text. -/
structure Flag where
  Name : String
  DefValue : FlagValue
  Usage : String
deriving DecidableEq, Repr

/-- A flag set (`serverCmd.Flags()`): the declared flags, in declaration order. -/
abbrev FlagSet := List Flag

/-- The call `FlagSet.Lookup(name)`: the flag of that name, `none` for Go's nil. -/
def Lookup (fs : FlagSet) (name : String) : Option Flag :=
  fs.find? (fun f => f.Name == name)

/-- Declaring a flag (`Flags().String`, `.Bool`, `.Int`, `.StringSlice`):
the flag library panics when the name is already declared. -/
def AddFlag (fs : FlagSet) (f : Flag) : Except String FlagSet :=
  match Lookup fs f.Name with
  | some _ => .error ("flag redefined: " ++ f.Name)
  | none => .ok (fs ++ [f])

/-- The flag bindings of viper: configuration key and bound flag, the latest
binding first. -/
abbrev Bindings := List (String × Flag)

/-- The call `viper.BindPFlag(key, flag)`: a nil flag is an error, which `init`
ignores, and binds nothing. -/
def BindPFlag (v : Bindings) (key : String) (flag : Option Flag) : Bindings :=
  match flag with
  | none => v
  | some f => (key, f) :: v

/-- The flag a configuration key is bound to. -/
def boundFlag (v : Bindings) (key : String) : Option Flag :=
  (v.find? (fun b => b.1 == key)).map (fun b => b.2)

/-- What `init` leaves behind: the flags of `serverCmd`, the viper bindings,
the names of the flags of Go's `flag.CommandLine`, and the `Use` names of the
subcommands of `rootCmd`. -/
structure InitState where
  flags : FlagSet
  viper : Bindings
  commandLine : List String
  rootCommands : List String
deriving DecidableEq, Repr

/-- The function `init`.  `ModeFile` and `BackendModeChoices` are the constant
and the variable of package `mapper`; `viper0` and `root0` are the viper
bindings and the subcommands of `rootCmd` that exist when `init` begins. -/
def init (ModeFile : String) (BackendModeChoices : List String)
    (viper0 : Bindings) (root0 : List String) : Except String InitState := do
  let fs : FlagSet := []
  let fs ← AddFlag fs ⟨"generate-kubeconfig",
    .string "/etc/kubernetes/aws-iam-authenticator/kubeconfig.yaml",
    "Output `path` where a generated webhook kubeconfig (for `--authentication-token-webhook-config-file`) will be stored (should be a hostPath mount)."⟩
  let v := BindPFlag viper0 "server.generateKubeconfig" (Lookup fs "generate-kubeconfig")

  let fs ← AddFlag fs ⟨"kubeconfig-pregenerated",
    .bool false,
    "set to `true` when a webhook kubeconfig is pre-generated by running the `init` command, and therefore the `server` shouldn't unnecessarily re-generate a new one."⟩
  let v := BindPFlag v "server.kubeconfigPregenerated" (Lookup fs "kubeconfig-pregenerated")

  let fs ← AddFlag fs ⟨"state-dir",
    .string "/var/aws-iam-authenticator",
    "State `directory` for generated certificate and private key (should be a hostPath mount)."⟩
  let v := BindPFlag v "server.stateDir" (Lookup fs "state-dir")

  let fs ← AddFlag fs ⟨"kubeconfig",
    .string "",
    "kubeconfig file path for using a local kubeconfig to configure the client to talk to the API server for the IAMIdentityMappings."⟩
  let v := BindPFlag v "server.kubeconfig" (Lookup fs "kubeconfig")
  let fs ← AddFlag fs ⟨"master",
    .string "",
    "master is the URL to the api server"⟩
  let v := BindPFlag v "server.master" (Lookup fs "master")

  let fs ← AddFlag fs ⟨"address",
    .string "127.0.0.1",
    "IP Address to bind the server to listen to. (should be a 127.0.0.1 or 0.0.0.0)"⟩
  let v := BindPFlag v "server.address" (Lookup fs "address")

  let fs ← AddFlag fs ⟨"backend-mode",
    .stringSlice [ModeFile],
    "Ordered list of backends to get mappings from. The first one that returns a matching mapping wins. Comma-delimited list of: " ++ ",".intercalate BackendModeChoices⟩
  let v := BindPFlag v "server.backendMode" (Lookup fs "backend-mode")

  let fs ← AddFlag fs ⟨"port",
    .int DefaultPort,
    "Port to bind the server to listen to"⟩
  let v := BindPFlag v "server.port" (Lookup fs "port")

  let fs ← AddFlag fs ⟨"ec2-describeInstances-qps",
    .int DefaultEC2DescribeInstancesQps,
    "AWS EC2 rate limiting with qps"⟩
  let v := BindPFlag v "server.ec2DescribeInstancesQps" (Lookup fs "ec2-describeInstances-qps")

  let fs ← AddFlag fs ⟨"ec2-describeInstances-burst",
    .int DefaultEC2DescribeInstancesBurst,
    "AWS EC2 rate Limiting with burst"⟩
  let v := BindPFlag v "server.ec2DescribeInstancesBurst" (Lookup fs "ec2-describeInstances-burst")

  return ⟨fs, v, [], root0 ++ ["server"]⟩

/-! ## Sample mappers and environments -/

/-- A mapper whose `Start` succeeds. -/
def fileMapper : Mapper := ⟨"MountedFile", fun _ => none⟩

/-- Another mapper whose `Start` succeeds. -/
def configMapMapper : Mapper := ⟨"EKSConfigMap", fun _ => none⟩

/-- A mapper whose `Start` returns an error. -/
def crdMapper : Mapper := ⟨"CRD", fun _ => some "cluster unreachable"⟩

/-- An environment whose configuration (here a cluster ID) loads, with the
given mapper chain, and stop channel number 7. -/
def sampleEnv (chain : List Mapper) : Env String :=
  ⟨7, .ok "cluster-1", fun _ => chain⟩

/-- An environment whose `getConfig` returns an error. -/
def badConfigEnv : Env String :=
  ⟨7, .error "cluster ID cannot be empty", fun _ => [fileMapper]⟩

/-! ## Lemmas on traces -/

section TraceLemmas

variable {Config : Type}

/-- The last element of a list that ends with the three given elements. -/
theorem getLast?_append_three {α : Type} (l : List α) (a b c : α) :
    (l ++ [a, b, c]).getLast? = some c := by
  have h : l ++ [a, b, c] = (l ++ [a, b]) ++ [c] := by simp
  rw [h, List.getLast?_concat]

theorem startCalls_append (a b : List (Event Config)) :
    startCalls (a ++ b) = startCalls a ++ startCalls b := by
  induction a with
  | nil => rfl
  | cons e t ih => cases e <;> simp [startCalls, ih]

theorem serverNewCalls_append (a b : List (Event Config)) :
    serverNewCalls (a ++ b) = serverNewCalls a ++ serverNewCalls b := by
  induction a with
  | nil => rfl
  | cons e t ih => cases e <;> simp [serverNewCalls, ih]

theorem serverRunCalls_append (a b : List (Event Config)) :
    serverRunCalls (a ++ b) = serverRunCalls a ++ serverRunCalls b := by
  induction a with
  | nil => rfl
  | cons e t ih => cases e <;> simp [serverRunCalls, ih]

theorem buildCalls_append (a b : List (Event Config)) :
    buildCalls (a ++ b) = buildCalls a ++ buildCalls b := by
  induction a with
  | nil => rfl
  | cons e t ih => cases e <;> simp [buildCalls, ih]

theorem fatalCalls_append (a b : List (Event Config)) :
    fatalCalls (a ++ b) = fatalCalls a ++ fatalCalls b := by
  induction a with
  | nil => rfl
  | cons e t ih => cases e <;> simp [fatalCalls, ih]

theorem startCalls_startedTrace (ch : StopCh) (ms : List Mapper) :
    startCalls (startedTrace ch ms : List (Event Config)) = ms.map (fun m => (m, ch, none)) := by
  induction ms with
  | nil => rfl
  | cons m rest ih => simp [startedTrace, startCalls, ih]

theorem serverNewCalls_startedTrace (ch : StopCh) (ms : List Mapper) :
    serverNewCalls (startedTrace ch ms : List (Event Config)) = [] := by
  induction ms with
  | nil => rfl
  | cons m rest ih => simp [startedTrace, serverNewCalls, ih]

theorem serverRunCalls_startedTrace (ch : StopCh) (ms : List Mapper) :
    serverRunCalls (startedTrace ch ms : List (Event Config)) = [] := by
  induction ms with
  | nil => rfl
  | cons m rest ih => simp [startedTrace, serverRunCalls, ih]

theorem buildCalls_startedTrace (ch : StopCh) (ms : List Mapper) :
    buildCalls (startedTrace ch ms : List (Event Config)) = [] := by
  induction ms with
  | nil => rfl
  | cons m rest ih => simp [startedTrace, buildCalls, ih]

theorem signalCalls_startedTrace (ch : StopCh) (ms : List Mapper) :
    signalCalls (startedTrace ch ms : List (Event Config)) = [] := by
  induction ms with
  | nil => rfl
  | cons m rest ih => simp [startedTrace, signalCalls, ih]

theorem fatalCalls_startedTrace (ch : StopCh) (ms : List Mapper) :
    fatalCalls (startedTrace ch ms : List (Event Config)) = [] := by
  induction ms with
  | nil => rfl
  | cons m rest ih => simp [startedTrace, fatalCalls, ih]

/-- When every `Start` returns nil the loop runs to its end. -/
theorem startMappers_all_ok (ch : StopCh) (ms : List Mapper)
    (h : ∀ m ∈ ms, m.Start ch = none) :
    (startMappers ch ms : Exec Config) = ⟨startedTrace ch ms, .returned⟩ := by
  induction ms with
  | nil => rfl
  | cons m rest ih =>
    have hm : m.Start ch = none := h m (List.mem_cons_self _ _)
    have hr := ih (fun x hx => h x (List.mem_cons_of_mem _ hx))
    simp [startMappers, startedTrace, hm, hr]

/-- When the mapper at position `i` is the first whose `Start` returns an
error, the loop starts the mappers before it, then this one, and exits. -/
theorem startMappers_first_error (ch : StopCh) (ms : List Mapper) (i : Nat)
    (m : Mapper) (e : Err) (hi : ms[i]? = some m) (herr : m.Start ch = some e)
    (hok : ∀ j x, j < i → ms[j]? = some x → x.Start ch = none) :
    (startMappers ch ms : Exec Config) =
      ⟨startedTrace ch (ms.take i) ++
        [.infof "starting mapper %q" [m.Name], .start m ch (some e),
         .fatalf "start mapper %q failed" [m.Name]], .fatal⟩ := by
  induction ms generalizing i with
  | nil => simp at hi
  | cons x rest ih =>
    cases i with
    | zero =>
      simp at hi
      subst hi
      simp [startMappers, startedTrace, herr]
    | succ k =>
      have hx : x.Start ch = none := hok 0 x (Nat.succ_pos k) (by simp)
      have hi2 : rest[k]? = some m := by simpa using hi
      have hr := ih k hi2 (fun j y hj hy => hok (j + 1) y (Nat.succ_lt_succ hj) (by simpa using hy))
      simp [startMappers, startedTrace, hx, hr]

/-- The loop ends fatally exactly when some `Start` returns an error. -/
theorem startMappers_returned_iff (ch : StopCh) (ms : List Mapper) :
    (startMappers ch ms : Exec Config).outcome = .returned ↔ ∀ m ∈ ms, m.Start ch = none := by
  induction ms with
  | nil => simp [startMappers]
  | cons m rest ih =>
    cases hm : m.Start ch with
    | none => simp [startMappers, hm, ih]
    | some e => simp [startMappers, hm]

/-- The loop calls nothing but `logrus` and `Start`, and passes every `Start`
the channel it was given. -/
theorem startMappers_calls (ch : StopCh) (ms : List Mapper) :
    serverNewCalls (startMappers ch ms : Exec Config).trace = [] ∧
    serverRunCalls (startMappers ch ms : Exec Config).trace = [] ∧
    signalCalls (startMappers ch ms : Exec Config).trace = [] ∧
    buildCalls (startMappers ch ms : Exec Config).trace = [] ∧
    ∀ p ∈ startCalls (startMappers ch ms : Exec Config).trace, p.2.1 = ch := by
  induction ms with
  | nil => simp [startMappers, serverNewCalls, serverRunCalls, signalCalls, buildCalls, startCalls]
  | cons m rest ih =>
    obtain ⟨h1, h2, h3, h4, h5⟩ := ih
    cases hm : m.Start ch with
    | none =>
      simp [startMappers, hm, serverNewCalls, serverRunCalls, signalCalls, buildCalls,
        startCalls, h1, h2, h3, h4]
      exact fun a c b hp => h5 (a, c, b) hp
    | some e =>
      simp [startMappers, hm, serverNewCalls, serverRunCalls, signalCalls, buildCalls,
        startCalls]

/-- The execution of `Run` when the configuration loads and every mapper starts. -/
theorem Run_all_ok (env : Env Config) (cfg : Config) (hcfg : env.getConfig = .ok cfg)
    (hall : ∀ m ∈ env.BuildMapperChain cfg, m.Start env.SetupSignalHandler = none) :
    Run env =
      ⟨[.setupSignalHandler env.SetupSignalHandler, .getConfig, .buildMapperChain cfg] ++
        startedTrace env.SetupSignalHandler (env.BuildMapperChain cfg) ++
        [.serverNew cfg (env.BuildMapperChain cfg),
         .serverRun ⟨cfg, env.BuildMapperChain cfg⟩ env.SetupSignalHandler], .returned⟩ := by
  have h := @startMappers_all_ok Config env.SetupSignalHandler _ hall
  simp [Run, hcfg, h]

/-- The execution of `Run` when the configuration loads and the mapper at
position `i` is the first whose `Start` returns an error. -/
theorem Run_first_error (env : Env Config) (cfg : Config) (i : Nat) (m : Mapper) (e : Err)
    (hcfg : env.getConfig = .ok cfg)
    (hi : (env.BuildMapperChain cfg)[i]? = some m)
    (herr : m.Start env.SetupSignalHandler = some e)
    (hok : ∀ j x, j < i → (env.BuildMapperChain cfg)[j]? = some x →
      x.Start env.SetupSignalHandler = none) :
    Run env =
      ⟨[.setupSignalHandler env.SetupSignalHandler, .getConfig, .buildMapperChain cfg] ++
        startedTrace env.SetupSignalHandler ((env.BuildMapperChain cfg).take i) ++
        [.infof "starting mapper %q" [m.Name], .start m env.SetupSignalHandler (some e),
         .fatalf "start mapper %q failed" [m.Name]], .fatal⟩ := by
  have h := @startMappers_first_error Config env.SetupSignalHandler _ i m e hi herr hok
  simp [Run, hcfg, h]

/-- When `Run` calls `httpServer.Run`, the configuration loaded and every
mapper of the chain started without error. -/
theorem Run_served_cases (env : Env Config) (srv : Server Config) (ch : StopCh)
    (h : (srv, ch) ∈ serverRunCalls (Run env).trace) :
    ∃ cfg, env.getConfig = .ok cfg ∧
      ∀ m ∈ env.BuildMapperChain cfg, m.Start env.SetupSignalHandler = none := by
  cases hcfg : env.getConfig with
  | error err => simp [Run, hcfg, serverRunCalls] at h
  | ok cfg =>
    refine ⟨cfg, rfl, ?_⟩
    by_contra hne
    have hout : (startMappers env.SetupSignalHandler (env.BuildMapperChain cfg) :
        Exec Config).outcome = .fatal := by
      cases ho : (startMappers env.SetupSignalHandler (env.BuildMapperChain cfg) :
          Exec Config).outcome with
      | fatal => rfl
      | returned => exact absurd ((startMappers_returned_iff _ _).1 ho) hne
    have hnone := (@startMappers_calls Config env.SetupSignalHandler
      (env.BuildMapperChain cfg)).2.1
    simp [Run, hcfg, hout, serverRunCalls_append, serverRunCalls, hnone] at h

/-- The shape of an execution of `Run` that calls `httpServer.Run`. -/
theorem Run_served_shape (env : Env Config) (srv : Server Config) (ch : StopCh)
    (h : (srv, ch) ∈ serverRunCalls (Run env).trace) :
    ∃ cfg, env.getConfig = .ok cfg ∧
      srv = ⟨cfg, env.BuildMapperChain cfg⟩ ∧
      ch = env.SetupSignalHandler ∧
      serverNewCalls (Run env).trace = [(cfg, env.BuildMapperChain cfg)] ∧
      startCalls (Run env).trace =
        (env.BuildMapperChain cfg).map (fun m => (m, env.SetupSignalHandler, none)) ∧
      (∀ m ∈ env.BuildMapperChain cfg, m.Start env.SetupSignalHandler = none) ∧
      buildCalls (Run env).trace = [cfg] ∧
      serverRunCalls (Run env).trace =
        [(⟨cfg, env.BuildMapperChain cfg⟩, env.SetupSignalHandler)] ∧
      (Run env).trace =
        ([.setupSignalHandler env.SetupSignalHandler, .getConfig, .buildMapperChain cfg] ++
          startedTrace env.SetupSignalHandler (env.BuildMapperChain cfg)) ++
        [.serverNew cfg (env.BuildMapperChain cfg),
         .serverRun ⟨cfg, env.BuildMapperChain cfg⟩ env.SetupSignalHandler] := by
  obtain ⟨cfg, hcfg, hall⟩ := Run_served_cases env srv ch h
  have hR := Run_all_ok env cfg hcfg hall
  rw [hR] at h
  have h2 : (srv, ch) ∈
      [((⟨cfg, env.BuildMapperChain cfg⟩ : Server Config), env.SetupSignalHandler)] := by
    simpa [serverRunCalls_append, serverRunCalls_startedTrace, serverRunCalls] using h
  have h3 := Prod.mk.inj (List.mem_singleton.1 h2)
  refine ⟨cfg, hcfg, h3.1, h3.2, ?_, ?_, hall, ?_, ?_, ?_⟩
  · rw [hR]
    simp [serverNewCalls_append, serverNewCalls_startedTrace, serverNewCalls]
  · rw [hR]
    simp [startCalls_append, startCalls_startedTrace, startCalls]
  · rw [hR]
    simp [buildCalls_append, buildCalls_startedTrace, buildCalls]
  · rw [hR]
    simp [serverRunCalls_append, serverRunCalls_startedTrace, serverRunCalls]
  · rw [hR]

end TraceLemmas

/-! ## The claims on `Run` -/

section RunClaims

variable {Config : Type}

/-- C1: when the configuration loads and the mapper at position `i` of the
chain returned by `BuildMapperChain` is the first whose `Start` returns an
error, `Run` ends fatally, its last call is `logrus.Fatalf`, and it calls
neither `server.New` nor `httpServer.Run`. -/
theorem Run_start_error_is_fatal (env : Env Config) (cfg : Config) (i : Nat)
    (m : Mapper) (e : Err)
    (hcfg : env.getConfig = .ok cfg)
    (hi : (env.BuildMapperChain cfg)[i]? = some m)
    (herr : m.Start env.SetupSignalHandler = some e)
    (hok : ∀ j x, j < i → (env.BuildMapperChain cfg)[j]? = some x →
      x.Start env.SetupSignalHandler = none) :
    (Run env).outcome = .fatal ∧
    (Run env).trace.getLast? = some (.fatalf "start mapper %q failed" [m.Name]) ∧
    serverNewCalls (Run env).trace = [] ∧
    serverRunCalls (Run env).trace = [] := by
  rw [Run_first_error env cfg i m e hcfg hi herr hok]
  refine ⟨rfl, ?_, ?_, ?_⟩
  · show (([Event.setupSignalHandler env.SetupSignalHandler, Event.getConfig,
        Event.buildMapperChain cfg] ++
        startedTrace env.SetupSignalHandler ((env.BuildMapperChain cfg).take i)) ++ _).getLast? = _
    exact getLast?_append_three _ _ _ _
  · simp [serverNewCalls_append, serverNewCalls_startedTrace, serverNewCalls]
  · simp [serverRunCalls_append, serverRunCalls_startedTrace, serverRunCalls]

/-- C1 at a concrete chain: the second of three mappers fails to start. -/
theorem Run_start_error_is_fatal_witness :
    (sampleEnv [fileMapper, crdMapper, configMapMapper]).getConfig = .ok "cluster-1" ∧
    ((sampleEnv [fileMapper, crdMapper, configMapMapper]).BuildMapperChain "cluster-1")[1]? =
      some crdMapper ∧
    crdMapper.Start 7 = some "cluster unreachable" ∧
    ((Run (sampleEnv [fileMapper, crdMapper, configMapMapper])).outcome = .fatal ∧
     (Run (sampleEnv [fileMapper, crdMapper, configMapMapper])).trace.getLast? =
       some (.fatalf "start mapper %q failed" ["CRD"]) ∧
     serverNewCalls (Run (sampleEnv [fileMapper, crdMapper, configMapMapper])).trace = [] ∧
     serverRunCalls (Run (sampleEnv [fileMapper, crdMapper, configMapMapper])).trace = []) :=
  ⟨rfl, rfl, rfl,
    Run_start_error_is_fatal (sampleEnv [fileMapper, crdMapper, configMapMapper])
      "cluster-1" 1 crdMapper "cluster unreachable" rfl rfl rfl
      (fun j x hj hx => by
        have hj0 : j = 0 := by omega
        subst hj0
        have hx0 : fileMapper = x := by simpa [sampleEnv] using hx
        subst hx0
        rfl)⟩

/-- C2: when the configuration loads and every mapper of the chain returned by
`BuildMapperChain` starts without error (the empty chain included), the
`Start` calls of `Run` are exactly one call for each mapper of the chain, in
chain order, and they all come before the single `httpServer.Run` call. -/
theorem Run_starts_every_mapper_once (env : Env Config) (cfg : Config)
    (hcfg : env.getConfig = .ok cfg)
    (hall : ∀ m ∈ env.BuildMapperChain cfg, m.Start env.SetupSignalHandler = none) :
    startCalls (Run env).trace =
      (env.BuildMapperChain cfg).map (fun m => (m, env.SetupSignalHandler, none)) ∧
    (startCalls (Run env).trace).map (fun p => p.1) = env.BuildMapperChain cfg ∧
    ∃ before,
      (Run env).trace = before ++
        [.serverNew cfg (env.BuildMapperChain cfg),
         .serverRun ⟨cfg, env.BuildMapperChain cfg⟩ env.SetupSignalHandler] ∧
      startCalls before =
        (env.BuildMapperChain cfg).map (fun m => (m, env.SetupSignalHandler, none)) ∧
      serverRunCalls before = [] := by
  rw [Run_all_ok env cfg hcfg hall]
  have hs : startCalls
      ([Event.setupSignalHandler env.SetupSignalHandler, Event.getConfig,
        Event.buildMapperChain cfg] ++
        startedTrace env.SetupSignalHandler (env.BuildMapperChain cfg)) =
      (env.BuildMapperChain cfg).map (fun m => (m, env.SetupSignalHandler, none)) := by
    simp [startCalls_append, startCalls_startedTrace, startCalls]
  refine ⟨?_, ?_, _, rfl, hs, ?_⟩
  · show startCalls (_ ++ _) = _
    rw [startCalls_append, hs]
    simp [startCalls]
  · show (startCalls (_ ++ _)).map _ = _
    rw [startCalls_append, hs]
    simp [startCalls, Function.comp_def]
  · simp [serverRunCalls_append, serverRunCalls_startedTrace, serverRunCalls]

/-- C2 at a concrete chain of two mappers that both start. -/
theorem Run_starts_every_mapper_once_witness :
    (sampleEnv [fileMapper, configMapMapper]).getConfig = .ok "cluster-1" ∧
    (startCalls (Run (sampleEnv [fileMapper, configMapMapper])).trace =
      [(fileMapper, 7, none), (configMapMapper, 7, none)] ∧
     (startCalls (Run (sampleEnv [fileMapper, configMapMapper])).trace).map (fun p => p.1) =
      [fileMapper, configMapMapper] ∧
     ∃ before,
      (Run (sampleEnv [fileMapper, configMapMapper])).trace = before ++
        [.serverNew "cluster-1" [fileMapper, configMapMapper],
         .serverRun ⟨"cluster-1", [fileMapper, configMapMapper]⟩ 7] ∧
      startCalls before = [(fileMapper, 7, none), (configMapMapper, 7, none)] ∧
      serverRunCalls before = []) :=
  ⟨rfl, Run_starts_every_mapper_once (sampleEnv [fileMapper, configMapMapper]) "cluster-1" rfl
    (fun m hm => by
      simp [sampleEnv] at hm
      rcases hm with h | h <;> subst h <;> rfl)⟩

/-- C3: whenever `Run` calls `httpServer.Run` on a server, that server was
constructed by the one `server.New` call, from the loaded configuration and
the chain returned by the one `BuildMapperChain` call for it; `Start` of every
mapper of that chain returns nil on the stop channel; the `Start` calls made
are one call for each mapper of that chain, in the same order, each recorded
with the result `Start` gave, which is nil; and all of them come before
`server.New` and `httpServer.Run`, the last two calls.  No mapper is served
that was not started successfully. -/
theorem Run_serves_started_chain (env : Env Config) (srv : Server Config) (ch : StopCh)
    (hrun : (srv, ch) ∈ serverRunCalls (Run env).trace) :
    ∃ cfg, env.getConfig = .ok cfg ∧
      srv.cfg = cfg ∧
      srv.mappers = env.BuildMapperChain cfg ∧
      serverNewCalls (Run env).trace = [(cfg, srv.mappers)] ∧
      (startCalls (Run env).trace).map (fun p => p.1) = srv.mappers ∧
      (∀ p ∈ startCalls (Run env).trace, p.2.2 = none) ∧
      (∀ m ∈ srv.mappers, (m, env.SetupSignalHandler, none) ∈ startCalls (Run env).trace) ∧
      (∀ m ∈ srv.mappers, m.Start env.SetupSignalHandler = none) ∧
      startCalls (Run env).trace =
        srv.mappers.map (fun m => (m, env.SetupSignalHandler, m.Start env.SetupSignalHandler)) ∧
      buildCalls (Run env).trace = [cfg] ∧
      ch = env.SetupSignalHandler ∧
      serverRunCalls (Run env).trace = [(srv, ch)] ∧
      ∃ before,
        (Run env).trace = before ++ [.serverNew cfg srv.mappers, .serverRun srv ch] ∧
        startCalls before = startCalls (Run env).trace := by
  obtain ⟨cfg, hcfg, hsrv, hch, hnew, hs, hall, hbuild, hruns, htrace⟩ :=
    Run_served_shape env srv ch hrun
  refine ⟨cfg, hcfg, ?_, ?_, ?_, ?_, ?_, ?_, ?_, ?_, hbuild, hch, ?_,
    [.setupSignalHandler env.SetupSignalHandler, .getConfig, .buildMapperChain cfg] ++
      startedTrace env.SetupSignalHandler (env.BuildMapperChain cfg), ?_, ?_⟩
  · rw [hsrv]
  · rw [hsrv]
  · rw [hnew, hsrv]
  · rw [hs, hsrv]
    simp [Function.comp_def]
  · rw [hs]
    intro p hp
    obtain ⟨m, _, hm⟩ := List.mem_map.1 hp
    rw [← hm]
  · rw [hs, hsrv]
    intro m hm
    exact List.mem_map.2 ⟨m, hm, rfl⟩
  · rw [hsrv]
    exact hall
  · rw [hs, hsrv]
    exact List.map_congr_left (fun m hm => by rw [hall m hm])
  · rw [hruns, hsrv, hch]
  · rw [htrace, hsrv, hch]
  · rw [htrace]
    simp [startCalls_append, startCalls]

/-- C3 at a concrete chain of two mappers that both start. -/
theorem Run_serves_started_chain_witness :
    ((⟨"cluster-1", [configMapMapper, fileMapper]⟩ : Server String), 7) ∈
      serverRunCalls (Run (sampleEnv [configMapMapper, fileMapper])).trace ∧
    ∃ cfg, (sampleEnv [configMapMapper, fileMapper]).getConfig = .ok cfg ∧
      "cluster-1" = cfg ∧
      [configMapMapper, fileMapper] =
        (sampleEnv [configMapMapper, fileMapper]).BuildMapperChain cfg ∧
      serverNewCalls (Run (sampleEnv [configMapMapper, fileMapper])).trace =
        [(cfg, [configMapMapper, fileMapper])] ∧
      (startCalls (Run (sampleEnv [configMapMapper, fileMapper])).trace).map (fun p => p.1) =
        [configMapMapper, fileMapper] ∧
      (∀ p ∈ startCalls (Run (sampleEnv [configMapMapper, fileMapper])).trace, p.2.2 = none) ∧
      (∀ m ∈ [configMapMapper, fileMapper],
        (m, 7, none) ∈ startCalls (Run (sampleEnv [configMapMapper, fileMapper])).trace) ∧
      (∀ m ∈ [configMapMapper, fileMapper], m.Start 7 = none) ∧
      startCalls (Run (sampleEnv [configMapMapper, fileMapper])).trace =
        [configMapMapper, fileMapper].map (fun m => (m, 7, m.Start 7)) ∧
      buildCalls (Run (sampleEnv [configMapMapper, fileMapper])).trace = [cfg] ∧
      7 = 7 ∧
      serverRunCalls (Run (sampleEnv [configMapMapper, fileMapper])).trace =
        [(⟨"cluster-1", [configMapMapper, fileMapper]⟩, 7)] ∧
      ∃ before,
        (Run (sampleEnv [configMapMapper, fileMapper])).trace = before ++
          [.serverNew cfg [configMapMapper, fileMapper],
           .serverRun ⟨"cluster-1", [configMapMapper, fileMapper]⟩ 7] ∧
        startCalls before = startCalls (Run (sampleEnv [configMapMapper, fileMapper])).trace :=
  ⟨List.Mem.head _,
    Run_serves_started_chain (sampleEnv [configMapMapper, fileMapper])
      ⟨"cluster-1", [configMapMapper, fileMapper]⟩ 7 (List.Mem.head _)⟩

/-- C8: when `getConfig` returns an error, `Run` makes three calls and no
more (`signals.SetupSignalHandler`, `getConfig`, `logrus.Fatalf` with the
error) and ends fatally: `BuildMapperChain` is not called, no mapper is
started, and `server.New` and `httpServer.Run` are not called. -/
theorem Run_config_error_is_fatal (env : Env Config) (err : Err)
    (hcfg : env.getConfig = .error err) :
    (Run env).trace =
      [.setupSignalHandler env.SetupSignalHandler, .getConfig, .fatalf "%s" [err]] ∧
    (Run env).outcome = .fatal ∧
    buildCalls (Run env).trace = [] ∧
    startCalls (Run env).trace = [] ∧
    serverNewCalls (Run env).trace = [] ∧
    serverRunCalls (Run env).trace = [] := by
  simp [Run, hcfg, buildCalls, startCalls, serverNewCalls, serverRunCalls]

/-- C8 at a concrete environment whose configuration does not load. -/
theorem Run_config_error_is_fatal_witness :
    badConfigEnv.getConfig = .error "cluster ID cannot be empty" ∧
    ((Run badConfigEnv).trace =
      [.setupSignalHandler 7, .getConfig, .fatalf "%s" ["cluster ID cannot be empty"]] ∧
     (Run badConfigEnv).outcome = .fatal ∧
     buildCalls (Run badConfigEnv).trace = [] ∧
     startCalls (Run badConfigEnv).trace = [] ∧
     serverNewCalls (Run badConfigEnv).trace = [] ∧
     serverRunCalls (Run badConfigEnv).trace = []) :=
  ⟨rfl, Run_config_error_is_fatal badConfigEnv "cluster ID cannot be empty" rfl⟩

/-- C9: when the configuration loads and the mapper at position `i` of the
chain is the first whose `Start` returns an error, the `Start` calls of `Run`
are one call for each of the mappers at positions `0..i`, in chain order (the
first `i` returning nil, the last one the error), no mapper after position
`i` is started, and the only `logrus.Fatalf` call, which is the last call of
`Run`, carries the name of the mapper at position `i`. -/
theorem Run_start_is_fail_fast (env : Env Config) (cfg : Config) (i : Nat)
    (m : Mapper) (e : Err)
    (hcfg : env.getConfig = .ok cfg)
    (hi : (env.BuildMapperChain cfg)[i]? = some m)
    (herr : m.Start env.SetupSignalHandler = some e)
    (hok : ∀ j x, j < i → (env.BuildMapperChain cfg)[j]? = some x →
      x.Start env.SetupSignalHandler = none) :
    startCalls (Run env).trace =
      ((env.BuildMapperChain cfg).take i).map (fun x => (x, env.SetupSignalHandler, none)) ++
        [(m, env.SetupSignalHandler, some e)] ∧
    (startCalls (Run env).trace).map (fun p => p.1) = (env.BuildMapperChain cfg).take (i + 1) ∧
    (startCalls (Run env).trace).length = i + 1 ∧
    fatalCalls (Run env).trace = [("start mapper %q failed", [m.Name])] ∧
    (Run env).trace.getLast? = some (.fatalf "start mapper %q failed" [m.Name]) ∧
    (Run env).outcome = .fatal := by
  have hs : startCalls (Run env).trace =
      ((env.BuildMapperChain cfg).take i).map (fun x => (x, env.SetupSignalHandler, none)) ++
        [(m, env.SetupSignalHandler, some e)] := by
    rw [Run_first_error env cfg i m e hcfg hi herr hok]
    simp [startCalls_append, startCalls_startedTrace, startCalls]
  have hlen : i < (env.BuildMapperChain cfg).length := by
    by_contra hge
    have hnone : (env.BuildMapperChain cfg)[i]? = none :=
      List.getElem?_eq_none (Nat.le_of_not_lt hge)
    rw [hnone] at hi
    cases hi
  refine ⟨hs, ?_, ?_, ?_, ?_, ?_⟩
  · rw [hs, List.take_succ, hi]
    simp [Function.comp_def]
  · rw [hs]
    simp [List.length_take, Nat.min_eq_left (Nat.le_of_lt hlen)]
  · rw [Run_first_error env cfg i m e hcfg hi herr hok]
    simp [fatalCalls_append, fatalCalls_startedTrace, fatalCalls]
  · rw [Run_first_error env cfg i m e hcfg hi herr hok]
    show (([Event.setupSignalHandler env.SetupSignalHandler, Event.getConfig,
        Event.buildMapperChain cfg] ++
        startedTrace env.SetupSignalHandler ((env.BuildMapperChain cfg).take i)) ++ _).getLast? = _
    exact getLast?_append_three _ _ _ _
  · rw [Run_first_error env cfg i m e hcfg hi herr hok]

/-- C9 at a concrete chain: the third of four mappers fails to start. -/
theorem Run_start_is_fail_fast_witness :
    (sampleEnv [configMapMapper, fileMapper, crdMapper, fileMapper]).getConfig =
      .ok "cluster-1" ∧
    ((sampleEnv [configMapMapper, fileMapper, crdMapper, fileMapper]).BuildMapperChain
      "cluster-1")[2]? = some crdMapper ∧
    crdMapper.Start 7 = some "cluster unreachable" ∧
    (startCalls (Run (sampleEnv [configMapMapper, fileMapper, crdMapper, fileMapper])).trace =
      [(configMapMapper, 7, none), (fileMapper, 7, none),
       (crdMapper, 7, some "cluster unreachable")] ∧
     (startCalls (Run (sampleEnv [configMapMapper, fileMapper, crdMapper,
        fileMapper])).trace).map (fun p => p.1) = [configMapMapper, fileMapper, crdMapper] ∧
     (startCalls (Run (sampleEnv [configMapMapper, fileMapper, crdMapper,
        fileMapper])).trace).length = 3 ∧
     fatalCalls (Run (sampleEnv [configMapMapper, fileMapper, crdMapper, fileMapper])).trace =
       [("start mapper %q failed", ["CRD"])] ∧
     (Run (sampleEnv [configMapMapper, fileMapper, crdMapper, fileMapper])).trace.getLast? =
       some (.fatalf "start mapper %q failed" ["CRD"]) ∧
     (Run (sampleEnv [configMapMapper, fileMapper, crdMapper, fileMapper])).outcome = .fatal) :=
  ⟨rfl, rfl, rfl,
    Run_start_is_fail_fast (sampleEnv [configMapMapper, fileMapper, crdMapper, fileMapper])
      "cluster-1" 2 crdMapper "cluster unreachable" rfl rfl rfl
      (fun j x hj hx => by
        have hj01 : j = 0 ∨ j = 1 := by omega
        rcases hj01 with h | h
        · subst h
          have hx0 : configMapMapper = x := by simpa [sampleEnv] using hx
          subst hx0
          rfl
        · subst h
          have hx1 : fileMapper = x := by simpa [sampleEnv] using hx
          subst hx1
          rfl)⟩

end RunClaims

/-! ## The claims on the flags declared by `init` -/

section FlagClaims

/-- C5: `init` declares the flag `backend-mode` as a list of strings, described
as an ordered list of backends, whose default is the one-element list
`[mapper.ModeFile]`, and binds it to the configuration key
`server.backendMode`. -/
theorem init_backend_mode_flag (ModeFile : String) (BackendModeChoices : List String)
    (viper0 : Bindings) (root0 : List String) :
    ∃ st f, init ModeFile BackendModeChoices viper0 root0 = .ok st ∧
      Lookup st.flags "backend-mode" = some f ∧
      f.DefValue = .stringSlice [ModeFile] ∧
      [ModeFile].length = 1 ∧
      f.Usage = "Ordered list of backends to get mappings from. The first one that returns a matching mapping wins. Comma-delimited list of: " ++ ",".intercalate BackendModeChoices ∧
      boundFlag st.viper "server.backendMode" = some f :=
  ⟨_, _, rfl, rfl, rfl, rfl, rfl, rfl⟩

/-- C6: `init` declares the flag `ec2-describeInstances-qps` with default
`DefaultEC2DescribeInstancesQps = 15`, bound to `server.ec2DescribeInstancesQps`,
and the flag `ec2-describeInstances-burst` with default
`DefaultEC2DescribeInstancesBurst = 5`, bound to
`server.ec2DescribeInstancesBurst`; the two are different flags and both
defaults are strictly positive. -/
theorem init_ec2_rate_limit_flags (ModeFile : String) (BackendModeChoices : List String)
    (viper0 : Bindings) (root0 : List String) :
    ∃ st qps burst, init ModeFile BackendModeChoices viper0 root0 = .ok st ∧
      Lookup st.flags "ec2-describeInstances-qps" = some qps ∧
      qps.DefValue = .int DefaultEC2DescribeInstancesQps ∧
      DefaultEC2DescribeInstancesQps = 15 ∧
      boundFlag st.viper "server.ec2DescribeInstancesQps" = some qps ∧
      Lookup st.flags "ec2-describeInstances-burst" = some burst ∧
      burst.DefValue = .int DefaultEC2DescribeInstancesBurst ∧
      DefaultEC2DescribeInstancesBurst = 5 ∧
      boundFlag st.viper "server.ec2DescribeInstancesBurst" = some burst ∧
      qps.Name ≠ burst.Name ∧
      0 < DefaultEC2DescribeInstancesQps ∧
      0 < DefaultEC2DescribeInstancesBurst :=
  ⟨_, _, _, rfl, rfl, rfl, rfl, rfl, rfl, rfl, rfl, rfl, by decide, by decide, by decide⟩

/-- C7: `init` declares the flag `port` with default `DefaultPort = 21362`, which
lies between 1 and 65535, bound to `server.port`, and the flag `address` with
default `127.0.0.1`, bound to `server.address`. -/
theorem init_port_and_address_flags (ModeFile : String) (BackendModeChoices : List String)
    (viper0 : Bindings) (root0 : List String) :
    ∃ st port address, init ModeFile BackendModeChoices viper0 root0 = .ok st ∧
      Lookup st.flags "port" = some port ∧
      port.DefValue = .int DefaultPort ∧
      DefaultPort = 21362 ∧
      1 ≤ DefaultPort ∧ DefaultPort ≤ 65535 ∧
      boundFlag st.viper "server.port" = some port ∧
      Lookup st.flags "address" = some address ∧
      address.DefValue = .string "127.0.0.1" ∧
      boundFlag st.viper "server.address" = some address :=
  ⟨_, _, _, rfl, rfl, rfl, rfl, by decide, by decide, rfl, rfl, rfl, rfl⟩

end FlagClaims

end ServerCmd
